import Mathlib

/-!
Verification of the camera two-way-audio streaming pipeline of the
homebridge-control4-home-connect plugin: the SDP parsing helpers and the
`SipCall` transaction machinery of `sip-call.ts`, and the session lifecycle
logic of `streamingDelegate.ts`, shallowly embedded as pure Lean functions.

All string primitives are implemented by structural recursion over `List Char`
so that every definition evaluates inside the kernel on concrete inputs.
-/

deriving instance DecidableEq for Except

/-! ## JavaScript-flavoured string primitives

The SDP helper functions come from the external `sdp` npm module and the
digest-auth helper from `sip/digest`; neither module's source is part of this
repository, so they are modelled at their interface boundary as the spec
describes them.
-/

/-- Digit-string value: `Nat` denoted by a list of decimal digit characters. -/
def charsToNat (l : List Char) : Nat :=
  l.foldl (fun acc c => acc * 10 + (c.toNat - 48)) 0

/-- Modelled from the spec: JavaScript `Number(tok)` on the decimal port and
SSRC numerals appearing in SDP attribute values; `none` plays the role of
`NaN` (and of `Number(undefined)`). -/
def jsNumber (s : String) : Option Nat :=
  if s.data ≠ [] ∧ s.data.all Char.isDigit then some (charsToNat s.data) else none

/-- Modelled from the spec: JavaScript `parseInt(tok, 10)` reads the longest
leading run of decimal digits; no leading digit means `NaN`, here `none`. -/
def jsParseInt (s : String) : Option Nat :=
  match s.data.takeWhile Char.isDigit with
  | [] => none
  | digits => some (charsToNat digits)

/-- Splitter used to model JavaScript `String.split(sep)` for a non-empty
separator: leftmost-first, non-overlapping matches; structural recursion on a
fuel argument so the kernel can evaluate it. -/
def splitChars (sep : List Char) : Nat → List Char → List Char → List (List Char)
  | _, [], acc => [acc.reverse]
  | 0, s, acc => [acc.reverse ++ s]
  | fuel + 1, c :: rest, acc =>
    if sep.isPrefixOf (c :: rest) then
      acc.reverse :: splitChars sep fuel ((c :: rest).drop sep.length) []
    else
      splitChars sep fuel rest (c :: acc)

/-- JavaScript `s.split(sep)` for the non-empty separators used here. -/
def jsSplit (sep s : String) : List String :=
  (splitChars sep.data (s.data.length + 1) s.data []).map String.mk

/-- Whitespace trim from both ends (JavaScript `trim`). -/
def jsTrim (s : String) : String :=
  ⟨((s.data.dropWhile Char.isWhitespace).reverse.dropWhile Char.isWhitespace).reverse⟩

/-- JavaScript `s.startsWith(p)`. -/
def jsStartsWith (s p : String) : Bool := p.data.isPrefixOf s.data

/-- JavaScript `Array.join(sep)`. -/
def jsJoin (sep : String) : List String → String
  | [] => ""
  | h :: t => t.foldl (fun acc x => acc ++ sep ++ x) h

/-- Modelled from the spec: the first capture of a regular expression
`sep(\S*)` — the non-whitespace run following the first occurrence of `sep`
in `line`, or `none` when `sep` does not occur (a failed `match`). -/
def captureAfter (sep line : String) : Option String :=
  match jsSplit sep line with
  | _ :: rest :: _ => some ⟨rest.data.takeWhile (fun c => ¬ c.isWhitespace)⟩
  | _ => none

/-- Modelled from the spec: the `sdp` module's `splitLines` — trim the blob,
split on newlines and trim every line. -/
def splitLines (blob : String) : List String :=
  (jsSplit "\n" (jsTrim blob)).map jsTrim

/-- Modelled from the spec: the `sdp` module's `splitSections` — the session
part followed by one section per `m=` line, each normalised to end in CRLF. -/
def splitSections (blob : String) : List String :=
  match jsSplit "\nm=" blob with
  | [] => []
  | sessionPart :: mediaParts =>
    (jsTrim sessionPart ++ "\r\n") ::
      mediaParts.map (fun part => jsTrim ("m=" ++ part) ++ "\r\n")

/-- Modelled from the spec: the port field of the `sdp` module's `parseMLine`
applied to a media section — the second space-separated token of the media
line, absent when the media line carries no port (the "media line lacks a
port" case of the spec's `MalformedSdp` contract). -/
def parseMLinePort (sec : String) : Option Nat :=
  (jsSplit " " ⟨((splitLines sec).headD "").data.drop 2⟩)[1]?.bind jsParseInt

/-! ## SDP data model and errors (`sip-call.ts`) -/

/-- `RtpStreamOptions` of `sip-call.ts`: RTP port, RTCP port, optional SSRC. -/
structure RtpStreamOptions where
  port : Nat
  rtcpPort : Nat
  ssrc : Option Nat
deriving Repr, DecidableEq

/-- `RtpDescription` of `sip-call.ts`: remote connection address plus the
audio stream options extracted from the SDP answer. -/
structure RtpDescription where
  address : String
  audio : RtpStreamOptions
deriving Repr, DecidableEq

/-- The failure modes of the embedded code.  `malformedSdp` stands for the
`Error` values deliberately thrown (and logged together with the raw SDP
text) by `getRtpDescription`; `typeError` stands for a JavaScript `TypeError`
raised by a failed non-null assertion; `sipFailed` is the terminal rejection
of `SipCall.send`; `callDestroyed` is the guard of `SipCall.request`. -/
inductive JsError where
  | malformedSdp (msg : String) (raw : String)
  | typeError (msg : String)
  | sipFailed (method : String) (status : Nat) (reason : String)
  | callDestroyed
deriving Repr, DecidableEq

/-- The `rtcpPort: (rtcpLine && Number(rtcpLine.match(/rtcp:(\S*)/)?.[1])) || port + 1`
truthiness chain of `getRtpDescription`: the explicit `a=rtcp:` attribute value
wins only when it is a nonzero number; an absent line, a failed match, `NaN`
and `0` all fall back to RTP port + 1. -/
def rtcpPortOf (port : Nat) (rtcpLine : Option String) : Nat :=
  match rtcpLine with
  | none => port + 1
  | some l =>
    match (captureAfter "rtcp:" l).bind jsNumber with
    | some n => if n = 0 then port + 1 else n
    | none => port + 1

/-- The `ssrc: (ssrcLine && Number(ssrcLine.match(/ssrc:(\S*)/)?.[1])) || undefined`
truthiness chain of `getRtpDescription`: an absent line, a failed match, `NaN`
and `0` all yield an absent synchronization source. -/
def ssrcOf (ssrcLine : Option String) : Option Nat :=
  match ssrcLine with
  | none => none
  | some l =>
    match (captureAfter "ssrc:" l).bind jsNumber with
    | some n => if n = 0 then none else some n
    | none => none

/-- `getRtpDescription` of `sip-call.ts` (lines 76–105): find the `m=audio`
section, read the port from the media line, default the RTCP port and the
optional SSRC through the `rtcpPortOf`/`ssrcOf` truthiness chains.
The two deliberate `throw new Error(...)` paths are caught locally, logged
together with `sections.join('\r\n')` and rethrown; the embedding records
that retained raw text inside the `malformedSdp` error. -/
def getRtpDescription (sections : List String) : Except JsError RtpStreamOptions :=
  let raw := jsJoin "\r\n" sections
  match sections.find? (fun s => jsStartsWith s "m=audio") with
  | none => .error (.malformedSdp "No m line found" raw)
  | some sec =>
    match parseMLinePort sec with
    | none => .error (.malformedSdp "No port found in m line" raw)
    | some port =>
      let lines := splitLines sec
      .ok {
        port := port
        rtcpPort := rtcpPortOf port (lines.find? (fun l => jsStartsWith l "a=rtcp:"))
        ssrc := ssrcOf (lines.find? (fun l => jsStartsWith l "a=ssrc")) }

/-- `parseRtpDescription` of `sip-call.ts` (lines 107–116).  The connection
line is looked up in the session section with a non-null assertion
(`lines.find(...)!`) and matched against `/c=IN IP4 (\S*)/` with another
non-null assertion; a missing connection line (or one not of `IN IP4` form)
therefore surfaces as a JavaScript `TypeError`.  The object literal
evaluates `address` before `audio`, so this `TypeError` is raised before
`getRtpDescription` runs and without its raw-SDP logging. -/
def parseRtpDescription (content : String) : Except JsError RtpDescription :=
  let sections := splitSections content
  let lines := splitLines (sections.headD "")
  match lines.find? (fun line => jsStartsWith line "c=") with
  | none => .error (.typeError "cLine is undefined")
  | some cLine =>
    match captureAfter "c=IN IP4 " cLine with
    | none => .error (.typeError "cLine match is null")
    | some address => (getRtpDescription sections).map (fun audio => ⟨address, audio⟩)

/-- Discriminator used to state that a parse failure is of the `MalformedSdp`
family (a deliberately thrown SDP error) as opposed to an unrelated error. -/
def isMalformedSdpResult (r : Except JsError RtpDescription) : Bool :=
  match r with
  | .error (.malformedSdp _ _) => true
  | _ => false

example : parseRtpDescription
    "v=0\r\nc=IN IP4 192.168.1.10\r\nm=audio 4000 RTP/AVP 0\r\na=rtcp:4005 IN IP4 192.168.1.10"
    = .ok ⟨"192.168.1.10", 4000, 4005, none⟩ := by decide

example : parseRtpDescription
    "v=0\r\no=- 1 1 IN IP4 10.0.0.1\r\nm=audio 4000 RTP/AVP 0"
    = .error (.typeError "cLine is undefined") := by decide

example : parseRtpDescription
    "v=0\r\nc=IN IP4 10.0.0.1\r\nm=audio 4000 RTP/AVP 0\r\na=rtcp:0\r\na=ssrc:banana cname:x"
    = .ok ⟨"10.0.0.1", 4000, 4001, none⟩ := by decide

example : parseRtpDescription "v=0\r\nc=IN IP4 10.0.0.1\r\nm=audio RTP/AVP 0"
    = .error (.malformedSdp "No port found in m line"
        (jsJoin "\r\n" (splitSections "v=0\r\nc=IN IP4 10.0.0.1\r\nm=audio RTP/AVP 0"))) := by
  decide

example : parseRtpDescription "v=0\r\nc=IN IP4 10.0.0.1\r\nt=0 0"
    = .error (.malformedSdp "No m line found"
        (jsJoin "\r\n" (splitSections "v=0\r\nc=IN IP4 10.0.0.1\r\nt=0 0"))) := by
  decide

/-! ## Claims C3, C4, C10: the SDP parsing contract -/

/-- C3 counterexample: an SDP body that lacks a connection line (but has a
well-formed `m=audio` media line with a port) makes parsing fail with a
JavaScript `TypeError` from the failed non-null assertion on the connection
line — not with a `MalformedSdp` error, and without the raw-text logging —
refuting the claim that every such body fails with `MalformedSdp`. -/
theorem c3_missing_connection_line_counterexample :
    parseRtpDescription "v=0\r\no=- 1 1 IN IP4 10.0.0.1\r\nm=audio 4000 RTP/AVP 0"
        = .error (.typeError "cLine is undefined")
      ∧ isMalformedSdpResult
          (parseRtpDescription "v=0\r\no=- 1 1 IN IP4 10.0.0.1\r\nm=audio 4000 RTP/AVP 0")
          = false := by
  decide

/-- C3 (amended): for every SDP body whose session section carries an
`IN IP4` connection line, a missing `m=audio` section or a media line
without a port fails with the corresponding `MalformedSdp` error retaining
the raw SDP text (`sections.join('\r\n')`); a body without a connection
line instead fails with a `TypeError` that is not a `MalformedSdp` error
and retains no raw text. -/
theorem c3_sdp_error_contract :
    (∀ content cLine addr,
        (splitLines ((splitSections content).headD "")).find?
            (fun l => jsStartsWith l "c=") = some cLine →
        captureAfter "c=IN IP4 " cLine = some addr →
        (splitSections content).find? (fun s => jsStartsWith s "m=audio") = none →
        parseRtpDescription content
          = .error (.malformedSdp "No m line found" (jsJoin "\r\n" (splitSections content)))) ∧
    (∀ content cLine addr sec,
        (splitLines ((splitSections content).headD "")).find?
            (fun l => jsStartsWith l "c=") = some cLine →
        captureAfter "c=IN IP4 " cLine = some addr →
        (splitSections content).find? (fun s => jsStartsWith s "m=audio") = some sec →
        parseMLinePort sec = none →
        parseRtpDescription content
          = .error (.malformedSdp "No port found in m line" (jsJoin "\r\n" (splitSections content)))) ∧
    (∀ content,
        (splitLines ((splitSections content).headD "")).find?
            (fun l => jsStartsWith l "c=") = none →
        parseRtpDescription content = .error (.typeError "cLine is undefined")
          ∧ isMalformedSdpResult (parseRtpDescription content) = false) := by
  refine ⟨?_, ?_, ?_⟩
  · intro content cLine addr h1 h2 h3
    simp only [parseRtpDescription, h1, h2, getRtpDescription, h3, Except.map]
  · intro content cLine addr sec h1 h2 h3 h4
    simp only [parseRtpDescription, h1, h2, getRtpDescription, h3, h4, Except.map]
  · intro content h1
    simp only [parseRtpDescription, h1, isMalformedSdpResult]
    exact ⟨trivial, trivial⟩

/-- C3 witness: concrete bodies exercising the two `MalformedSdp` branches
and the `TypeError` branch of `c3_sdp_error_contract`. -/
theorem c3_sdp_error_contract_witness :
    parseRtpDescription "v=0\r\nc=IN IP4 10.0.0.1\r\nt=0 0"
        = .error (.malformedSdp "No m line found"
            (jsJoin "\r\n" (splitSections "v=0\r\nc=IN IP4 10.0.0.1\r\nt=0 0")))
      ∧ parseRtpDescription "v=0\r\nc=IN IP4 10.0.0.1\r\nm=audio RTP/AVP 0"
          = .error (.malformedSdp "No port found in m line"
              (jsJoin "\r\n" (splitSections "v=0\r\nc=IN IP4 10.0.0.1\r\nm=audio RTP/AVP 0")))
      ∧ parseRtpDescription "v=0\r\nt=0 0" = .error (.typeError "cLine is undefined") :=
  ⟨c3_sdp_error_contract.1 "v=0\r\nc=IN IP4 10.0.0.1\r\nt=0 0" "c=IN IP4 10.0.0.1" "10.0.0.1"
      (by decide) (by decide) (by decide),
   c3_sdp_error_contract.2.1 "v=0\r\nc=IN IP4 10.0.0.1\r\nm=audio RTP/AVP 0"
      "c=IN IP4 10.0.0.1" "10.0.0.1" "m=audio RTP/AVP 0\r\n"
      (by decide) (by decide) (by decide) (by decide),
   (c3_sdp_error_contract.2.2 "v=0\r\nt=0 0" (by decide)).1⟩

/-- C4 (confirmed): for every valid SDP body — one whose session section has
an `IN IP4` connection line and which contains an `m=audio` section whose
media line carries a port — parsing succeeds, returns the RTP port of the
media line and the connection address, the RTCP port equals the explicit
`a=rtcp:` attribute value whenever that attribute is present with a nonzero
numeric value and RTP port + 1 when the attribute is absent, and the
synchronization source is absent when no `a=ssrc` attribute is found. -/
theorem c4_port_roundtrip_rtcp_default :
    ∀ content cLine addr sec port,
      (splitLines ((splitSections content).headD "")).find?
          (fun l => jsStartsWith l "c=") = some cLine →
      captureAfter "c=IN IP4 " cLine = some addr →
      (splitSections content).find? (fun s => jsStartsWith s "m=audio") = some sec →
      parseMLinePort sec = some port →
      ∃ d, parseRtpDescription content = .ok d
        ∧ d.address = addr
        ∧ d.audio.port = port
        ∧ ((splitLines sec).find? (fun l => jsStartsWith l "a=rtcp:") = none →
            d.audio.rtcpPort = port + 1)
        ∧ (∀ rl n, (splitLines sec).find? (fun l => jsStartsWith l "a=rtcp:") = some rl →
            (captureAfter "rtcp:" rl).bind jsNumber = some n → n ≠ 0 →
            d.audio.rtcpPort = n)
        ∧ ((splitLines sec).find? (fun l => jsStartsWith l "a=ssrc") = none →
            d.audio.ssrc = none) := by
  intro content cLine addr sec port h1 h2 h3 h4
  refine ⟨⟨addr, port,
      rtcpPortOf port ((splitLines sec).find? (fun l => jsStartsWith l "a=rtcp:")),
      ssrcOf ((splitLines sec).find? (fun l => jsStartsWith l "a=ssrc"))⟩,
    ?_, rfl, rfl, ?_, ?_, ?_⟩
  · simp only [parseRtpDescription, h1, h2, getRtpDescription, h3, h4, Except.map]
  · intro hr
    simp only [hr, rtcpPortOf]
  · intro rl n hr hn hnz
    simp only [hr, rtcpPortOf, hn]
    exact if_neg hnz
  · intro hs
    simp only [hs, ssrcOf]

/-- C4 witness: a concrete valid SDP body with an explicit `a=rtcp:`
attribute and no `a=ssrc` attribute, run through `c4_port_roundtrip_rtcp_default`. -/
theorem c4_port_roundtrip_rtcp_default_witness :
    ∃ d, parseRtpDescription
        "v=0\r\nc=IN IP4 192.168.1.10\r\nm=audio 4000 RTP/AVP 0\r\na=rtcp:4005 IN IP4 192.168.1.10"
        = .ok d
      ∧ d.address = "192.168.1.10"
      ∧ d.audio.port = 4000
      ∧ ((splitLines "m=audio 4000 RTP/AVP 0\r\na=rtcp:4005 IN IP4 192.168.1.10\r\n").find?
            (fun l => jsStartsWith l "a=rtcp:") = none →
          d.audio.rtcpPort = 4000 + 1)
      ∧ (∀ rl n, (splitLines "m=audio 4000 RTP/AVP 0\r\na=rtcp:4005 IN IP4 192.168.1.10\r\n").find?
            (fun l => jsStartsWith l "a=rtcp:") = some rl →
          (captureAfter "rtcp:" rl).bind jsNumber = some n → n ≠ 0 →
          d.audio.rtcpPort = n)
      ∧ ((splitLines "m=audio 4000 RTP/AVP 0\r\na=rtcp:4005 IN IP4 192.168.1.10\r\n").find?
            (fun l => jsStartsWith l "a=ssrc") = none →
          d.audio.ssrc = none) :=
  c4_port_roundtrip_rtcp_default
    "v=0\r\nc=IN IP4 192.168.1.10\r\nm=audio 4000 RTP/AVP 0\r\na=rtcp:4005 IN IP4 192.168.1.10"
    "c=IN IP4 192.168.1.10" "192.168.1.10"
    "m=audio 4000 RTP/AVP 0\r\na=rtcp:4005 IN IP4 192.168.1.10\r\n" 4000
    (by decide) (by decide) (by decide) (by decide)

/-- C10 (confirmed): when the audio media section carries an `a=rtcp:`
attribute whose value does not parse as a nonzero number, extraction
silently returns RTCP port = RTP port + 1 (not the attribute value and not a
failure); likewise an `a=ssrc` attribute whose value does not parse as a
nonzero number yields an absent synchronization source. -/
theorem c10_nonnumeric_attributes_default :
    ∀ content cLine addr sec port,
      (splitLines ((splitSections content).headD "")).find?
          (fun l => jsStartsWith l "c=") = some cLine →
      captureAfter "c=IN IP4 " cLine = some addr →
      (splitSections content).find? (fun s => jsStartsWith s "m=audio") = some sec →
      parseMLinePort sec = some port →
      ∃ d, parseRtpDescription content = .ok d
        ∧ (∀ rl, (splitLines sec).find? (fun l => jsStartsWith l "a=rtcp:") = some rl →
            ((captureAfter "rtcp:" rl).bind jsNumber = none
              ∨ (captureAfter "rtcp:" rl).bind jsNumber = some 0) →
            d.audio.rtcpPort = port + 1)
        ∧ (∀ sl, (splitLines sec).find? (fun l => jsStartsWith l "a=ssrc") = some sl →
            ((captureAfter "ssrc:" sl).bind jsNumber = none
              ∨ (captureAfter "ssrc:" sl).bind jsNumber = some 0) →
            d.audio.ssrc = none) := by
  intro content cLine addr sec port h1 h2 h3 h4
  refine ⟨⟨addr, port,
      rtcpPortOf port ((splitLines sec).find? (fun l => jsStartsWith l "a=rtcp:")),
      ssrcOf ((splitLines sec).find? (fun l => jsStartsWith l "a=ssrc"))⟩,
    ?_, ?_, ?_⟩
  · simp only [parseRtpDescription, h1, h2, getRtpDescription, h3, h4, Except.map]
  · intro rl hr hbad
    rcases hbad with hbad | hbad <;> simp [hr, rtcpPortOf, hbad]
  · intro sl hs hbad
    rcases hbad with hbad | hbad <;> simp [hs, ssrcOf, hbad]

/-- C10 witness: a concrete body with `a=rtcp:0` and a non-numeric
`a=ssrc:banana`, run through `c10_nonnumeric_attributes_default`; the zero and
non-numeric attribute values fall back to RTP port + 1 and no SSRC. -/
theorem c10_nonnumeric_attributes_default_witness :
    ∃ d, parseRtpDescription
        "v=0\r\nc=IN IP4 10.0.0.1\r\nm=audio 4000 RTP/AVP 0\r\na=rtcp:0\r\na=ssrc:banana cname:x"
        = .ok d
      ∧ (∀ rl, (splitLines "m=audio 4000 RTP/AVP 0\r\na=rtcp:0\r\na=ssrc:banana cname:x\r\n").find?
            (fun l => jsStartsWith l "a=rtcp:") = some rl →
          ((captureAfter "rtcp:" rl).bind jsNumber = none
            ∨ (captureAfter "rtcp:" rl).bind jsNumber = some 0) →
          d.audio.rtcpPort = 4000 + 1)
      ∧ (∀ sl, (splitLines "m=audio 4000 RTP/AVP 0\r\na=rtcp:0\r\na=ssrc:banana cname:x\r\n").find?
            (fun l => jsStartsWith l "a=ssrc") = some sl →
          ((captureAfter "ssrc:" sl).bind jsNumber = none
            ∨ (captureAfter "ssrc:" sl).bind jsNumber = some 0) →
          d.audio.ssrc = none) :=
  c10_nonnumeric_attributes_default
    "v=0\r\nc=IN IP4 10.0.0.1\r\nm=audio 4000 RTP/AVP 0\r\na=rtcp:0\r\na=ssrc:banana cname:x"
    "c=IN IP4 10.0.0.1" "10.0.0.1"
    "m=audio 4000 RTP/AVP 0\r\na=rtcp:0\r\na=ssrc:banana cname:x\r\n" 4000
    (by decide) (by decide) (by decide) (by decide)

/-! ## The SIP call manager (`SipCall`, `sip-call.ts`)

`SipCall.request` builds the transaction request (fresh `cseq` from the
mutable counter, current call-id) and `SipCall.send` interprets responses:
1xx are ignored, the first decisive response settles the transaction — 2xx
resolves (dispatching an ACK for INVITE answers), a 401/407 on a first
attempt triggers exactly one authenticated retry through `request` again,
anything else rejects.  The environment supplies the list of responses the
stack delivers to each attempt's callback.
-/

/-- A SIP URI header value (the `uri` field of the library's UriOptions). -/
structure SipUri where
  uri : String
deriving Repr, DecidableEq

/-- A `cseq` header value: sequence number and method. -/
structure SipCseq where
  seq : Nat
  method : String
deriving Repr, DecidableEq

/-- The response headers read by `SipCall.send`. -/
structure SipRespHeaders where
  cseq : Option SipCseq := none
  toH : Option SipUri := none
  fromH : Option SipUri := none
  callId : Option String := none
  contact : List SipUri := []
deriving Repr, DecidableEq

/-- A SIP response as seen by the `sipStack.send` callback. -/
structure SipResponse where
  status : Nat
  reason : String := ""
  headers : SipRespHeaders := {}
  content : String := ""
deriving Repr, DecidableEq

/-- A digest-authentication header: carried under `proxy-authorization` when
`proxy` is true and under `authorization` otherwise. -/
structure SipAuthHeader where
  proxy : Bool
  credential : String
deriving Repr, DecidableEq

/-- A request dispatched on the wire by the embedded `SipCall` (transaction
requests built by `request` as well as the fire-and-forget ACK, whose `via`
is forced empty). -/
structure SipOutRequest where
  method : String
  uri : String
  toUri : String
  fromUri : String
  callId : String
  cseq : SipCseq
  maxForwards : Option Nat
  auth : Option SipAuthHeader
  content : Option String
  emptyVia : Bool
deriving Repr, DecidableEq

/-- `SipOptions` of `sip-call.ts` with the credentials embedded in the server
URL (read by the digest retry via `new URL(server)`). -/
structure SipOptions where
  toUri : String
  fromUri : String
  user : String
  password : String
deriving Repr, DecidableEq

/-- The call-scoped mutable state of `SipCall`: `seq` starts at 20, `callId`
is regenerated by each `invite()`, `destroyed` is set by `destroy()`. -/
structure SipCallState where
  seq : Nat
  callId : String
  destroyed : Bool
deriving Repr, DecidableEq

/-- A response is decisive when it is not provisional: the callback returns
early exactly on `100 <= status < 200`. -/
def isFinalResponse (r : SipResponse) : Bool :=
  decide (r.status < 100 ∨ 200 ≤ r.status)

/-- The guard of the ACK dispatch in `SipCall.send`:
`response.headers?.cseq?.method === 'INVITE' && response.headers.cseq.seq`
(JavaScript truthiness makes a zero sequence number skip the ACK). -/
def ackCondition (r : SipResponse) : Bool :=
  match r.headers.cseq with
  | some c => c.method == "INVITE" && c.seq != 0
  | none => false

/-- The ACK built inside the 2xx branch of `SipCall.send`: target URI from the
response's first `contact` (falling back to the configured peer), `to`/`from`/
`call-id` from the response headers (with configured fallbacks), the sequence
number copied from the response's `cseq`, and an empty `via` list.  It is
dispatched through `sipStack.send` without a callback, so it can never trigger
an authentication retry. -/
def makeAck (opts : SipOptions) (st : SipCallState) (r : SipResponse) : SipOutRequest :=
  { method := "ACK"
    uri := ((r.headers.contact.head?).map SipUri.uri).getD opts.toUri
    toUri := ((r.headers.toH).map SipUri.uri).getD opts.toUri
    fromUri := ((r.headers.fromH).map SipUri.uri).getD opts.fromUri
    callId := r.headers.callId.getD st.callId
    cseq := ⟨((r.headers.cseq).map SipCseq.seq).getD 0, "ACK"⟩
    maxForwards := none
    auth := none
    content := none
    emptyVia := true }

/-- Modelled from the spec: `sipDigest.signRequest(null, request, response,
credentials)` from the external `sip/digest` module. Its client context marks
the challenge as proxy-scoped exactly when the response status is 407, and it
attaches the digest credential to the retried request under
`proxy-authorization` (proxy scope) or `authorization` (server scope); the
credential text itself is opaque to this development. -/
def signRequestAuth (opts : SipOptions) (r : SipResponse) : SipAuthHeader :=
  ⟨r.status == 407, "Digest username=" ++ opts.user⟩

/-- The header construction of `SipCall.request` (lines 219–242): fixed
`to`/`from`/request URI from the options, `max-forwards: 70`, the current
call-id, and `cseq: { seq: cseq ?? this.seq++, method }` — the counter is
post-incremented exactly when no explicit `cseq` argument is given (no caller
in the code ever passes one). -/
def buildRequest (opts : SipOptions) (st : SipCallState) (method : String)
    (content : Option String) (auth : Option SipAuthHeader) (cseqArg : Option Nat) :
    SipOutRequest × SipCallState :=
  ({ method := method
     uri := opts.toUri
     toUri := opts.toUri
     fromUri := opts.fromUri
     callId := st.callId
     cseq := ⟨cseqArg.getD st.seq, method⟩
     maxForwards := some 70
     auth := auth
     content := content
     emptyVia := false },
   match cseqArg with
   | some _ => st
   | none => { st with seq := st.seq + 1 })

/-- How a transaction promise settles. -/
inductive TxSettle where
  | pending
  | resolved (r : SipResponse)
  | failed (e : JsError)
deriving Repr, DecidableEq

/-- Observable outcome of one `SipCall.request` call: how the promise
settles, the transaction requests dispatched (one per attempt), the ACKs
dispatched, and the final mutable state. -/
structure TxResult where
  settle : TxSettle
  requests : List SipOutRequest
  acks : List SipOutRequest
  state : SipCallState
deriving Repr, DecidableEq

/-- The retry attempt (`isRetry = true`): same interpretation of the decisive
response except that a second 401/407 falls through to the terminal
rejection `sip <method> request failed with status ...` — no third attempt
exists in the code. -/
def requestTxFinal (opts : SipOptions) (st : SipCallState) (method : String)
    (content : Option String) (auth : Option SipAuthHeader)
    (env : List SipResponse) : TxResult :=
  if st.destroyed then ⟨.failed .callDestroyed, [], [], st⟩
  else
    let req := (buildRequest opts st method content auth none).1
    let st1 := (buildRequest opts st method content auth none).2
    match env.find? isFinalResponse with
    | none => ⟨.pending, [req], [], st1⟩
    | some r =>
      if 200 ≤ r.status ∧ r.status < 300 then
        ⟨.resolved r, [req], if ackCondition r then [makeAck opts st1 r] else [], st1⟩
      else
        ⟨.failed (.sipFailed method r.status r.reason), [req], [], st1⟩

/-- One `SipCall.request` transaction (first attempt, `isRetry = false`).
`env1` lists the responses delivered to the first attempt's callback and
`env2` those delivered to the retry's, if one happens.  On a 401/407 the
code calls `this.request` again with the same method and body plus the
digest header computed by `signRequest` (which mutated the request's
headers in place), marking the retry; the retried request draws a fresh
sequence number from the shared counter. -/
def requestTx (opts : SipOptions) (st : SipCallState) (method : String)
    (content : Option String) (auth : Option SipAuthHeader) (cseqArg : Option Nat)
    (env1 env2 : List SipResponse) : TxResult :=
  if st.destroyed then ⟨.failed .callDestroyed, [], [], st⟩
  else
    let req := (buildRequest opts st method content auth cseqArg).1
    let st1 := (buildRequest opts st method content auth cseqArg).2
    match env1.find? isFinalResponse with
    | none => ⟨.pending, [req], [], st1⟩
    | some r =>
      if 200 ≤ r.status ∧ r.status < 300 then
        ⟨.resolved r, [req], if ackCondition r then [makeAck opts st1 r] else [], st1⟩
      else if r.status = 401 ∨ r.status = 407 then
        let retry := requestTxFinal opts st1 method content (some (signRequestAuth opts r)) env2
        ⟨retry.settle, req :: retry.requests, retry.acks, retry.state⟩
      else
        ⟨.failed (.sipFailed method r.status r.reason), [req], [], st1⟩

/-- Modelled from the spec: `sip.parseUri` restricted to the user and host of
a `sip:user@host` URI, as used by `invite()` to build the SDP offer. -/
def parseUriUserHost (u : String) : String × String :=
  let afterScheme := (jsSplit ":" u).getD 1 ""
  match jsSplit "@" afterScheme with
  | [userPart, hostPart] => (userPart, hostPart)
  | _ => ("", afterScheme)

/-- The SDP offer built by `SipCall.invite` (lines 178–191): fixed session
lines, the audio media line and RTCP attribute from the chosen local ports,
the SSRC attribute only when a (truthy, hence nonzero) SSRC is set, each line
joined by CRLF with a trailing CRLF. -/
def inviteContent (opts : SipOptions) (audio : RtpStreamOptions) : String :=
  let uh := parseUriUserHost opts.fromUri
  jsJoin "\r\n"
    (["v=0",
      "o=" ++ uh.1 ++ " 3747 461 IN IP4 " ++ uh.2,
      "s=Talk",
      "c=IN IP4 " ++ uh.2,
      "t=0 0",
      "m=audio " ++ toString audio.port ++ " RTP/AVP 0",
      "a=rtcp:" ++ toString audio.rtcpPort ++ " IN IP4 " ++ uh.2] ++
      (match audio.ssrc with
       | some s => if s = 0 then [] else ["a=ssrc:" ++ toString s]
       | none => []) ++
      ["a=sendrecv"]) ++ "\r\n"

/-- The call-level operations of one `SipCall` lifetime: `invite()` (which
regenerates the call-id before issuing the INVITE transaction) and
`sendBye()` (a plain BYE transaction whose failure is swallowed).  Each
operation carries the environment's responses for its attempt(s). -/
inductive SipCallOp where
  | invite (newCallId : String) (audio : RtpStreamOptions) (env1 env2 : List SipResponse)
  | bye (env1 env2 : List SipResponse)

/-- The call-id under which an operation's requests are issued: the fresh id
for `invite`, the current id for `bye`. -/
def opCallId (st : SipCallState) (op : SipCallOp) : String :=
  match op with
  | .invite newCallId _ _ _ => newCallId
  | .bye _ _ => st.callId

/-- One operation on the shared `SipCall`: `invite()` resets only the call-id
(`this.callId = getRandomId()`, line 167 — the sequence counter is *not*
touched) and issues an INVITE carrying the SDP offer; `sendBye()` issues a
BYE. -/
def stepCall (opts : SipOptions) (st : SipCallState) (op : SipCallOp) : TxResult :=
  match op with
  | .invite newCallId audio env1 env2 =>
      requestTx opts { st with callId := newCallId } "INVITE"
        (some (inviteContent opts audio)) none none env1 env2
  | .bye env1 env2 =>
      requestTx opts st "BYE" none none none env1 env2

/-- A whole `SipCall` lifetime: successive invite/bye cycles over the shared
state, collecting every transaction request dispatched on the wire. -/
def runCall (opts : SipOptions) : SipCallState → List SipCallOp → SipCallState × List SipOutRequest
  | st, [] => (st, [])
  | st, op :: ops =>
      let r := stepCall opts st op
      let rest := runCall opts r.state ops
      (rest.1, r.requests ++ rest.2)

/-- Shape of a retry attempt when the call is not destroyed: it dispatches
exactly one request, carrying the supplied auth header and a sequence number
drawn from (and incrementing) the shared counter. -/
theorem requestTxFinal_spec (opts : SipOptions) (st : SipCallState) (method : String)
    (content : Option String) (auth : Option SipAuthHeader) (env : List SipResponse)
    (hd : st.destroyed = false) :
    (requestTxFinal opts st method content auth env).state.seq = st.seq + 1
    ∧ (requestTxFinal opts st method content auth env).state.callId = st.callId
    ∧ (requestTxFinal opts st method content auth env).state.destroyed = false
    ∧ ∃ q, (requestTxFinal opts st method content auth env).requests = [q]
        ∧ q.cseq = ⟨st.seq, method⟩ ∧ q.callId = st.callId ∧ q.method = method
        ∧ q.content = content ∧ q.auth = auth := by
  unfold requestTxFinal buildRequest
  rcases hf : env.find? isFinalResponse with _ | r
  · simp [hd, hf]
  · simp only [hd, hf, Bool.false_eq_true, if_false]
    split <;> exact ⟨rfl, rfl, rfl, _, rfl, rfl, rfl, rfl, rfl, rfl⟩

/-- Case shape of one `SipCall.request` call on a live call: either a single
attempt was dispatched (sequence number = entry counter, counter bumped once)
or the attempt and its single authenticated retry were (consecutive sequence
numbers, counter bumped twice); the call-id is the entry call-id throughout. -/
theorem requestTx_shape (opts : SipOptions) (st : SipCallState) (method : String)
    (content : Option String) (auth : Option SipAuthHeader)
    (env1 env2 : List SipResponse) (hd : st.destroyed = false) :
    (∃ q, (requestTx opts st method content auth none env1 env2).requests = [q]
        ∧ q.cseq.seq = st.seq ∧ q.callId = st.callId
        ∧ (requestTx opts st method content auth none env1 env2).state.seq = st.seq + 1
        ∧ (requestTx opts st method content auth none env1 env2).state.callId = st.callId)
    ∨ (∃ q1 q2, (requestTx opts st method content auth none env1 env2).requests = [q1, q2]
        ∧ q1.cseq.seq = st.seq ∧ q2.cseq.seq = st.seq + 1
        ∧ q1.callId = st.callId ∧ q2.callId = st.callId
        ∧ (requestTx opts st method content auth none env1 env2).state.seq = st.seq + 2
        ∧ (requestTx opts st method content auth none env1 env2).state.callId = st.callId) := by
  have hst2 : (buildRequest opts st method content auth none).2.seq = st.seq + 1 := rfl
  have hcid2 : (buildRequest opts st method content auth none).2.callId = st.callId := rfl
  have hd1 : (buildRequest opts st method content auth none).2.destroyed = false := hd
  unfold requestTx
  simp only [hd, Bool.false_eq_true, if_false]
  rcases hf : env1.find? isFinalResponse with _ | r
  · exact Or.inl ⟨_, rfl, rfl, rfl, rfl, rfl⟩
  · dsimp only
    split_ifs with h2xx hack hchal
    · exact Or.inl ⟨_, rfl, rfl, rfl, rfl, rfl⟩
    · exact Or.inl ⟨_, rfl, rfl, rfl, rfl, rfl⟩
    · obtain ⟨hseq, hcid, hdst, q, hq, hqc, hqid, -, -, -⟩ :=
        requestTxFinal_spec opts (buildRequest opts st method content auth none).2 method
          content (some (signRequestAuth opts r)) env2 hd1
      refine Or.inr ⟨(buildRequest opts st method content auth none).1, q, ?_, rfl, ?_, rfl, ?_, ?_, ?_⟩
      · simpa using hq
      · rw [hqc]
        exact hst2
      · rw [hqid, hcid2]
      · simpa [hst2] using hseq
      · rw [hcid, hcid2]
    · exact Or.inl ⟨_, rfl, rfl, rfl, rfl, rfl⟩

/-- Per-transaction bounds: every transaction request issued by one
`SipCall.request` call (first attempt and, possibly, its single retry) draws
its sequence number from the shared counter, strictly increasing within the
transaction, bounded below by the entry counter and strictly below the exit
counter; the call-id is never touched. -/
theorem requestTx_spec (opts : SipOptions) (st : SipCallState) (method : String)
    (content : Option String) (auth : Option SipAuthHeader)
    (env1 env2 : List SipResponse) :
    st.seq ≤ (requestTx opts st method content auth none env1 env2).state.seq
    ∧ (requestTx opts st method content auth none env1 env2).state.callId = st.callId
    ∧ List.Pairwise (fun a b => a < b)
        ((requestTx opts st method content auth none env1 env2).requests.map
          (fun q => q.cseq.seq))
    ∧ ∀ q ∈ (requestTx opts st method content auth none env1 env2).requests,
        st.seq ≤ q.cseq.seq
        ∧ q.cseq.seq < (requestTx opts st method content auth none env1 env2).state.seq
        ∧ q.callId = st.callId := by
  by_cases hd : st.destroyed
  · have heq : requestTx opts st method content auth none env1 env2
        = ⟨.failed .callDestroyed, [], [], st⟩ := by
      simp [requestTx, hd]
    rw [heq]
    simp
  · rw [Bool.not_eq_true] at hd
    rcases requestTx_shape opts st method content auth env1 env2 hd with
      ⟨q, hreq, hq1, hq2, hs1, hs2⟩ | ⟨q1, q2, hreq, ha1, ha2, hb1, hb2, hs1, hs2⟩
    · rw [hreq, hs1, hs2]
      refine ⟨by omega, rfl, by simp, ?_⟩
      intro p hp
      simp only [List.mem_singleton] at hp
      subst hp
      exact ⟨by omega, by omega, hq2⟩
    · rw [hreq, hs1, hs2]
      refine ⟨by omega, rfl, ?_, ?_⟩
      · simp only [List.map_cons, List.map_nil, List.pairwise_cons, List.mem_singleton,
          List.mem_cons, List.not_mem_nil, List.Pairwise.nil]
        refine ⟨?_, by simp⟩
        intro b hb
        rcases hb with hb | hb
        · subst hb; omega
        · simp at hb
      · intro p hp
        simp only [List.mem_cons, List.mem_singleton, List.not_mem_nil] at hp
        rcases hp with hp | hp | hp
        · subst hp; exact ⟨by omega, by omega, hb1⟩
        · subst hp; exact ⟨by omega, by omega, hb2⟩
        · cases hp

/-- Per-operation bounds, lifted from `requestTx_spec`: each call operation
keeps the counter monotone and issues requests whose sequence numbers sit
between the entry and exit counters and whose call-id is the operation's
call-id (the fresh id for an invite, the current id otherwise). -/
theorem stepCall_spec (opts : SipOptions) (st : SipCallState) (op : SipCallOp) :
    st.seq ≤ (stepCall opts st op).state.seq
    ∧ (stepCall opts st op).state.callId = opCallId st op
    ∧ List.Pairwise (fun a b => a < b)
        ((stepCall opts st op).requests.map (fun q => q.cseq.seq))
    ∧ ∀ q ∈ (stepCall opts st op).requests,
        st.seq ≤ q.cseq.seq
        ∧ q.cseq.seq < (stepCall opts st op).state.seq
        ∧ q.callId = opCallId st op := by
  cases op with
  | invite newCallId audio env1 env2 =>
    simpa [stepCall, opCallId] using
      requestTx_spec opts { st with callId := newCallId } "INVITE"
        (some (inviteContent opts audio)) none env1 env2
  | bye env1 env2 =>
    simpa [stepCall, opCallId] using
      requestTx_spec opts st "BYE" none none env1 env2

/-- Trace-level bounds: over any sequence of invite/bye operations the
counter is monotone and every dispatched transaction request has a sequence
number in the window between the trace's entry and exit counters, the whole
emitted list being strictly increasing. -/
theorem runCall_spec (opts : SipOptions) :
    ∀ (ops : List SipCallOp) (st : SipCallState),
      st.seq ≤ (runCall opts st ops).1.seq
      ∧ List.Pairwise (fun a b => a < b)
          ((runCall opts st ops).2.map (fun q => q.cseq.seq))
      ∧ ∀ q ∈ (runCall opts st ops).2,
          st.seq ≤ q.cseq.seq ∧ q.cseq.seq < (runCall opts st ops).1.seq := by
  intro ops
  induction ops with
  | nil => intro st; simp [runCall]
  | cons op ops ih =>
    intro st
    obtain ⟨hmono, hcid, hpair, hmem⟩ := stepCall_spec opts st op
    obtain ⟨hmono2, hpair2, hmem2⟩ := ih (stepCall opts st op).state
    have hrun : runCall opts st (op :: ops)
        = ((runCall opts (stepCall opts st op).state ops).1,
           (stepCall opts st op).requests ++ (runCall opts (stepCall opts st op).state ops).2) :=
      rfl
    rw [hrun]
    dsimp only
    refine ⟨by omega, ?_, ?_⟩
    · rw [List.map_append, List.pairwise_append]
      refine ⟨hpair, hpair2, ?_⟩
      intro a ha b hb
      simp only [List.mem_map] at ha hb
      obtain ⟨qa, hqa, rfl⟩ := ha
      obtain ⟨qb, hqb, rfl⟩ := hb
      have h1 := (hmem qa hqa).2.1
      have h2 := (hmem2 qb hqb).1
      omega
    · intro q hq
      rw [List.mem_append] at hq
      rcases hq with hq | hq
      · have h1 := hmem q hq
        have h2 := (hmem q hq).2.1
        exact ⟨h1.1, by omega⟩
      · have h1 := hmem2 q hq
        exact ⟨by omega, h1.2⟩

/-- C1 (confirmed): across any `SipCall` lifetime the sequence numbers of the
dispatched transaction requests strictly increase (hence never repeat); the
sequence counter is never reset by any operation (it is monotone across
invites and byes alike, so in particular never mid-call); the call identifier
is changed only at an `invite()` boundary — a `bye` leaves it untouched, an
`invite` installs exactly its fresh id — and every request of an operation is
issued under that operation's call-id. -/
theorem c1_cseq_monotone_callid_reset_only_at_invite :
    (∀ (opts : SipOptions) (st : SipCallState) (ops : List SipCallOp),
        List.Pairwise (fun a b => a < b)
          ((runCall opts st ops).2.map (fun q => q.cseq.seq)))
    ∧ (∀ (opts : SipOptions) (st : SipCallState) (op : SipCallOp),
        st.seq ≤ (stepCall opts st op).state.seq)
    ∧ (∀ (opts : SipOptions) (st : SipCallState) (env1 env2 : List SipResponse),
        (stepCall opts st (.bye env1 env2)).state.callId = st.callId)
    ∧ (∀ (opts : SipOptions) (st : SipCallState) (newCallId : String)
        (audio : RtpStreamOptions) (env1 env2 : List SipResponse),
        (stepCall opts st (.invite newCallId audio env1 env2)).state.callId = newCallId)
    ∧ (∀ (opts : SipOptions) (st : SipCallState) (op : SipCallOp),
        (stepCall opts st op).requests.all (fun q => q.callId == opCallId st op) = true) :=
  ⟨fun opts st ops => (runCall_spec opts ops st).2.1,
   fun opts st op => (stepCall_spec opts st op).1,
   fun opts st env1 env2 => (stepCall_spec opts st (.bye env1 env2)).2.1,
   fun opts st newCallId audio env1 env2 =>
     (stepCall_spec opts st (.invite newCallId audio env1 env2)).2.1,
   fun opts st op => by
     rw [List.all_eq_true]
     intro q hq
     exact beq_iff_eq.mpr ((stepCall_spec opts st op).2.2.2 q hq).2.2⟩

/-- C2 (confirmed): a transaction whose first attempt is answered 401 or 407
is retried exactly once — exactly two requests are dispatched, the first
without credentials, the retry carrying the digest header whose scope is
`proxy-authorization` precisely for a 407 challenge — and the retry's
decisive response is final: a 2xx resolves the transaction with that
response, while a second 401/407 rejects it with the `SipTransactionFailed`
message (`sip <method> request failed with status ...`) and no third attempt
exists. -/
theorem c2_auth_retry_exactly_once :
    ∀ (opts : SipOptions) (st : SipCallState) (method : String) (content : Option String)
      (env1 env2 : List SipResponse) (r1 : SipResponse),
      st.destroyed = false →
      env1.find? isFinalResponse = some r1 →
      (r1.status = 401 ∨ r1.status = 407) →
      ∃ q1 q2,
        (requestTx opts st method content none none env1 env2).requests = [q1, q2]
        ∧ q1.auth = none
        ∧ q2.auth = some (signRequestAuth opts r1)
        ∧ (signRequestAuth opts r1).proxy = (r1.status == 407)
        ∧ q2.method = method ∧ q2.content = content
        ∧ (∀ r2, env2.find? isFinalResponse = some r2 →
            ((200 ≤ r2.status ∧ r2.status < 300) →
              (requestTx opts st method content none none env1 env2).settle = .resolved r2)
            ∧ ((r2.status = 401 ∨ r2.status = 407) →
              (requestTx opts st method content none none env1 env2).settle
                = .failed (.sipFailed method r2.status r2.reason))) := by
  intro opts st method content env1 env2 r1 hd hf1 hch
  have hne1 : ¬(200 ≤ r1.status ∧ r1.status < 300) := by
    rcases hch with h | h <;> omega
  have hd1 : ((buildRequest opts st method content none none).2).destroyed = false := hd
  have hmain : requestTx opts st method content none none env1 env2
      = ⟨(requestTxFinal opts (buildRequest opts st method content none none).2 method content
            (some (signRequestAuth opts r1)) env2).settle,
         (buildRequest opts st method content none none).1 ::
           (requestTxFinal opts (buildRequest opts st method content none none).2 method content
            (some (signRequestAuth opts r1)) env2).requests,
         (requestTxFinal opts (buildRequest opts st method content none none).2 method content
            (some (signRequestAuth opts r1)) env2).acks,
         (requestTxFinal opts (buildRequest opts st method content none none).2 method content
            (some (signRequestAuth opts r1)) env2).state⟩ := by
    unfold requestTx
    simp only [hd, Bool.false_eq_true, if_false, hf1]
    rw [if_neg hne1, if_pos hch]
  rcases hf2 : env2.find? isFinalResponse with _ | r2
  · have hfin : requestTxFinal opts (buildRequest opts st method content none none).2 method
        content (some (signRequestAuth opts r1)) env2
        = ⟨.pending,
           [(buildRequest opts (buildRequest opts st method content none none).2 method content
              (some (signRequestAuth opts r1)) none).1], [],
           (buildRequest opts (buildRequest opts st method content none none).2 method content
              (some (signRequestAuth opts r1)) none).2⟩ := by
      unfold requestTxFinal
      simp only [hd1, Bool.false_eq_true, if_false, hf2]
    refine ⟨_, _, by rw [hmain, hfin], rfl, rfl, rfl, rfl, rfl, ?_⟩
    intro r2 h2
    cases h2
  · have hfin : ∀ s2 : TxSettle,
        (¬(200 ≤ r2.status ∧ r2.status < 300) →
          s2 = .failed (.sipFailed method r2.status r2.reason)) →
        ((200 ≤ r2.status ∧ r2.status < 300) → s2 = .resolved r2) →
        True := fun _ _ _ => trivial
    by_cases h2xx : 200 ≤ r2.status ∧ r2.status < 300
    · have hfin2 : requestTxFinal opts (buildRequest opts st method content none none).2 method
          content (some (signRequestAuth opts r1)) env2
          = ⟨.resolved r2,
             [(buildRequest opts (buildRequest opts st method content none none).2 method content
                (some (signRequestAuth opts r1)) none).1],
             if ackCondition r2 = true then
               [makeAck opts (buildRequest opts (buildRequest opts st method content none none).2
                  method content (some (signRequestAuth opts r1)) none).2 r2]
             else [],
             (buildRequest opts (buildRequest opts st method content none none).2 method content
                (some (signRequestAuth opts r1)) none).2⟩ := by
        unfold requestTxFinal
        simp only [hd1, Bool.false_eq_true, if_false, hf2]
        rw [if_pos h2xx]
      refine ⟨_, _, by rw [hmain, hfin2], rfl, rfl, rfl, rfl, rfl, ?_⟩
      intro r2x h2
      cases h2
      constructor
      · intro _
        rw [hmain, hfin2]
      · intro hbad
        rcases hbad with h | h <;> omega
    · have hfin2 : requestTxFinal opts (buildRequest opts st method content none none).2 method
          content (some (signRequestAuth opts r1)) env2
          = ⟨.failed (.sipFailed method r2.status r2.reason),
             [(buildRequest opts (buildRequest opts st method content none none).2 method content
                (some (signRequestAuth opts r1)) none).1], [],
             (buildRequest opts (buildRequest opts st method content none none).2 method content
                (some (signRequestAuth opts r1)) none).2⟩ := by
        unfold requestTxFinal
        simp only [hd1, Bool.false_eq_true, if_false, hf2]
        rw [if_neg h2xx]
      refine ⟨_, _, by rw [hmain, hfin2], rfl, rfl, rfl, rfl, rfl, ?_⟩
      intro r2x h2
      cases h2
      constructor
      · intro hgood
        exact absurd hgood h2xx
      · intro _
        rw [hmain, hfin2]

/-- C2 witness: a concrete 401 challenge followed by a 2xx on the retry,
run through `c2_auth_retry_exactly_once`. -/
theorem c2_auth_retry_exactly_once_witness :
    ∃ q1 q2,
      (requestTx ⟨"sip:cam@host", "sip:me@host", "user", "pw"⟩ ⟨20, "cid", false⟩ "INVITE"
          (some "offer") none none
          [⟨401, "Unauthorized", {}, ""⟩] [⟨200, "OK", {}, ""⟩]).requests = [q1, q2]
      ∧ q1.auth = none
      ∧ q2.auth = some (signRequestAuth ⟨"sip:cam@host", "sip:me@host", "user", "pw"⟩
          ⟨401, "Unauthorized", {}, ""⟩)
      ∧ (signRequestAuth ⟨"sip:cam@host", "sip:me@host", "user", "pw"⟩
          ⟨401, "Unauthorized", {}, ""⟩).proxy = ((401 : Nat) == 407)
      ∧ q2.method = "INVITE" ∧ q2.content = some "offer"
      ∧ (∀ r2, ([⟨200, "OK", {}, ""⟩] : List SipResponse).find? isFinalResponse = some r2 →
          ((200 ≤ r2.status ∧ r2.status < 300) →
            (requestTx ⟨"sip:cam@host", "sip:me@host", "user", "pw"⟩ ⟨20, "cid", false⟩ "INVITE"
              (some "offer") none none
              [⟨401, "Unauthorized", {}, ""⟩] [⟨200, "OK", {}, ""⟩]).settle = .resolved r2)
          ∧ ((r2.status = 401 ∨ r2.status = 407) →
            (requestTx ⟨"sip:cam@host", "sip:me@host", "user", "pw"⟩ ⟨20, "cid", false⟩ "INVITE"
              (some "offer") none none
              [⟨401, "Unauthorized", {}, ""⟩] [⟨200, "OK", {}, ""⟩]).settle
              = .failed (.sipFailed "INVITE" r2.status r2.reason))) :=
  c2_auth_retry_exactly_once ⟨"sip:cam@host", "sip:me@host", "user", "pw"⟩ ⟨20, "cid", false⟩
    "INVITE" (some "offer") [⟨401, "Unauthorized", {}, ""⟩] [⟨200, "OK", {}, ""⟩]
    ⟨401, "Unauthorized", {}, ""⟩ rfl (by decide) (Or.inl rfl)

/-- C5 (confirmed): when a transaction's decisive response is a 2xx whose
`cseq` names INVITE with a (truthy) nonzero sequence number, `SipCall.send`
resolves with that response and dispatches exactly one ACK whose target URI,
`to`/`from`/`call-id` routing headers and sequence number are taken from the
2xx response (with configured fallbacks), not from the original INVITE
request; the ACK carries no credentials, empties `via`, and is not a
transaction request (only the single INVITE attempt exists), so it can never
trigger an authentication retry. -/
theorem c5_ack_built_from_response :
    ∀ (opts : SipOptions) (st : SipCallState) (method : String) (content : Option String)
      (auth : Option SipAuthHeader) (cseqArg : Option Nat)
      (env1 env2 : List SipResponse) (r : SipResponse) (s : Nat),
      st.destroyed = false →
      env1.find? isFinalResponse = some r →
      200 ≤ r.status → r.status < 300 →
      r.headers.cseq = some ⟨s, "INVITE"⟩ →
      s ≠ 0 →
      (requestTx opts st method content auth cseqArg env1 env2).settle = .resolved r
      ∧ (requestTx opts st method content auth cseqArg env1 env2).requests.length = 1
      ∧ ∃ a, (requestTx opts st method content auth cseqArg env1 env2).acks = [a]
          ∧ a.method = "ACK"
          ∧ a.cseq = ⟨s, "ACK"⟩
          ∧ a.uri = ((r.headers.contact.head?).map SipUri.uri).getD opts.toUri
          ∧ a.toUri = ((r.headers.toH).map SipUri.uri).getD opts.toUri
          ∧ a.fromUri = ((r.headers.fromH).map SipUri.uri).getD opts.fromUri
          ∧ a.callId = r.headers.callId.getD st.callId
          ∧ a.auth = none
          ∧ a.emptyVia = true := by
  intro opts st method content auth cseqArg env1 env2 r s hd hf h2a h2b hcseq hnz
  have hack : ackCondition r = true := by
    simp [ackCondition, hcseq, hnz]
  have hcid : (buildRequest opts st method content auth cseqArg).2.callId = st.callId := by
    cases cseqArg <;> rfl
  have hmain : requestTx opts st method content auth cseqArg env1 env2
      = ⟨.resolved r, [(buildRequest opts st method content auth cseqArg).1],
         [makeAck opts (buildRequest opts st method content auth cseqArg).2 r],
         (buildRequest opts st method content auth cseqArg).2⟩ := by
    unfold requestTx
    simp only [hd, Bool.false_eq_true, if_false, hf]
    rw [if_pos ⟨h2a, h2b⟩, if_pos hack]
  rw [hmain]
  refine ⟨rfl, rfl, makeAck opts (buildRequest opts st method content auth cseqArg).2 r,
    rfl, rfl, ?_, rfl, rfl, rfl, ?_, rfl, rfl⟩
  · simp [makeAck, hcseq]
  · simp [makeAck, hcid]

/-- C5 witness: a concrete 200 response to an INVITE carrying contact, to,
from and call-id headers, run through `c5_ack_built_from_response`. -/
theorem c5_ack_built_from_response_witness :
    (requestTx ⟨"sip:cam@host", "sip:me@host", "user", "pw"⟩ ⟨20, "cid", false⟩ "INVITE"
        (some "offer") none none
        [⟨200, "OK", ⟨some ⟨20, "INVITE"⟩, some ⟨"sip:to@host"⟩, some ⟨"sip:me@host"⟩,
          some "remote-cid", [⟨"sip:contact@host"⟩]⟩, "sdp"⟩] []).settle
      = .resolved ⟨200, "OK", ⟨some ⟨20, "INVITE"⟩, some ⟨"sip:to@host"⟩, some ⟨"sip:me@host"⟩,
          some "remote-cid", [⟨"sip:contact@host"⟩]⟩, "sdp"⟩
    ∧ (requestTx ⟨"sip:cam@host", "sip:me@host", "user", "pw"⟩ ⟨20, "cid", false⟩ "INVITE"
        (some "offer") none none
        [⟨200, "OK", ⟨some ⟨20, "INVITE"⟩, some ⟨"sip:to@host"⟩, some ⟨"sip:me@host"⟩,
          some "remote-cid", [⟨"sip:contact@host"⟩]⟩, "sdp"⟩] []).requests.length = 1
    ∧ ∃ a, (requestTx ⟨"sip:cam@host", "sip:me@host", "user", "pw"⟩ ⟨20, "cid", false⟩ "INVITE"
        (some "offer") none none
        [⟨200, "OK", ⟨some ⟨20, "INVITE"⟩, some ⟨"sip:to@host"⟩, some ⟨"sip:me@host"⟩,
          some "remote-cid", [⟨"sip:contact@host"⟩]⟩, "sdp"⟩] []).acks = [a]
        ∧ a.method = "ACK"
        ∧ a.cseq = ⟨20, "ACK"⟩
        ∧ a.uri = ((([⟨"sip:contact@host"⟩] : List SipUri).head?).map SipUri.uri).getD "sip:cam@host"
        ∧ a.toUri = ((some ⟨"sip:to@host"⟩ : Option SipUri).map SipUri.uri).getD "sip:cam@host"
        ∧ a.fromUri = ((some ⟨"sip:me@host"⟩ : Option SipUri).map SipUri.uri).getD "sip:me@host"
        ∧ a.callId = (some "remote-cid" : Option String).getD "cid"
        ∧ a.auth = none
        ∧ a.emptyVia = true :=
  c5_ack_built_from_response ⟨"sip:cam@host", "sip:me@host", "user", "pw"⟩ ⟨20, "cid", false⟩
    "INVITE" (some "offer") none none
    [⟨200, "OK", ⟨some ⟨20, "INVITE"⟩, some ⟨"sip:to@host"⟩, some ⟨"sip:me@host"⟩,
      some "remote-cid", [⟨"sip:contact@host"⟩]⟩, "sdp"⟩] []
    ⟨200, "OK", ⟨some ⟨20, "INVITE"⟩, some ⟨"sip:to@host"⟩, some ⟨"sip:me@host"⟩,
      some "remote-cid", [⟨"sip:contact@host"⟩]⟩, "sdp"⟩ 20
    rfl (by decide) (by decide) (by decide) rfl (by decide)

/-! ## The streaming session controller (`streamingDelegate.ts`) -/

/-- `RtpOptions` of `sip-call.ts`: the audio leg offered in the INVITE. -/
structure RtpOptions where
  audio : RtpStreamOptions
deriving Repr, DecidableEq

/-- The slice of `SessionInfo` relevant to two-way audio, as stored in
`pendingSessions` by `prepareStream`. -/
structure StoredSession where
  videoReturnPort : Nat
  audioReturnPort : Nat
  videoSSRC : Nat
  audioSSRC : Nat
  sipRtpOptions : Option RtpOptions
  sipRemoteRtpDescription : Option RtpDescription
  rtpHelperCreated : Bool
  rtpLocalAudioPort : Option Nat
  rtpLocalAudioPortRtcp : Option Nat
deriving Repr, DecidableEq

/-- Environment of one `prepareStream` call: the ports handed out by the
allocator (8 with SIP configured, 4 otherwise — the allocator always returns
the requested count per spec §4.3), the generated synchronization sources,
and how the `sipCall.invite(...)` promise settles. -/
structure PrepareEnv where
  ports : List Nat
  videoSSRC : Nat
  audioSSRC : Nat
  sipAudioSSRC : Nat
  inviteResult : Except JsError RtpDescription
deriving Repr, DecidableEq

/-- Observable outcome of `prepareStream`: whether the callback received a
success response, how many courtesy BYEs were attempted, whether the invite
failure was logged, and the session stored under the session id. -/
structure PrepareOutcome where
  success : Bool
  byeAttempts : Nat
  inviteErrorLogged : Bool
  stored : StoredSession
deriving Repr, DecidableEq

/-- `StreamingDelegate.prepareStream` (lines 353–449), two-way-audio slice:
reserve ports, generate SSRCs and, when SIP is configured, run
`sipCall.invite`; a rejected invite is caught — `sendBye().catch()` is fired
once and the error logged — and preparation continues without the remote
description or the RTP relay, still storing the session and answering the
callback with a success response. -/
def prepareStream (sipConfigured : Bool) (env : PrepareEnv) : PrepareOutcome :=
  let base : StoredSession := {
    videoReturnPort := env.ports.getD 0 0
    audioReturnPort := env.ports.getD 2 0
    videoSSRC := env.videoSSRC
    audioSSRC := env.audioSSRC
    sipRtpOptions := none
    sipRemoteRtpDescription := none
    rtpHelperCreated := false
    rtpLocalAudioPort := none
    rtpLocalAudioPortRtcp := none }
  if sipConfigured then
    let sipPorts := env.ports.drop 4
    let withSip := { base with
      sipRtpOptions := some ⟨⟨sipPorts.getD 0 0, sipPorts.getD 1 0, some env.sipAudioSSRC⟩⟩
      rtpLocalAudioPort := some (sipPorts.getD 2 0)
      rtpLocalAudioPortRtcp := some (sipPorts.getD 3 0) }
    match env.inviteResult with
    | .ok desc =>
      { success := true, byeAttempts := 0, inviteErrorLogged := false,
        stored := { withSip with sipRemoteRtpDescription := some desc, rtpHelperCreated := true } }
    | .error _ =>
      { success := true, byeAttempts := 1, inviteErrorLogged := true, stored := withSip }
  else
    { success := true, byeAttempts := 0, inviteErrorLogged := false, stored := base }

/-- C6 (confirmed): whenever the SIP `invite()` fails during `prepareStream`,
preparation still answers the callback with a success response, exactly one
courtesy BYE is attempted, the failure is logged rather than propagated, and
the stored session simply lacks two-way audio (no remote RTP description, no
relay). -/
theorem c6_prepare_succeeds_on_invite_failure :
    ∀ (env : PrepareEnv) (e : JsError),
      env.inviteResult = .error e →
      (prepareStream true env).success = true
      ∧ (prepareStream true env).byeAttempts = 1
      ∧ (prepareStream true env).inviteErrorLogged = true
      ∧ (prepareStream true env).stored.sipRemoteRtpDescription = none
      ∧ (prepareStream true env).stored.rtpHelperCreated = false
      ∧ (prepareStream true env).stored.sipRtpOptions
          = some ⟨⟨(env.ports.drop 4).getD 0 0, (env.ports.drop 4).getD 1 0,
              some env.sipAudioSSRC⟩⟩ := by
  intro env e hinv
  simp only [prepareStream, hinv, if_true]
  exact ⟨trivial, trivial, trivial, trivial, trivial, trivial⟩

/-- C6 witness: a concrete failed invite run through
`c6_prepare_succeeds_on_invite_failure`. -/
theorem c6_prepare_succeeds_on_invite_failure_witness :
    (prepareStream true ⟨[30000, 30001, 30002, 30003, 30004, 30005, 30006, 30007],
        111, 222, 333, .error (.sipFailed "INVITE" 503 "Service Unavailable")⟩).success = true
    ∧ (prepareStream true ⟨[30000, 30001, 30002, 30003, 30004, 30005, 30006, 30007],
        111, 222, 333, .error (.sipFailed "INVITE" 503 "Service Unavailable")⟩).byeAttempts = 1
    ∧ (prepareStream true ⟨[30000, 30001, 30002, 30003, 30004, 30005, 30006, 30007],
        111, 222, 333, .error (.sipFailed "INVITE" 503 "Service Unavailable")⟩).inviteErrorLogged
        = true
    ∧ (prepareStream true ⟨[30000, 30001, 30002, 30003, 30004, 30005, 30006, 30007],
        111, 222, 333,
        .error (.sipFailed "INVITE" 503 "Service Unavailable")⟩).stored.sipRemoteRtpDescription
        = none
    ∧ (prepareStream true ⟨[30000, 30001, 30002, 30003, 30004, 30005, 30006, 30007],
        111, 222, 333, .error (.sipFailed "INVITE" 503 "Service Unavailable")⟩).stored.rtpHelperCreated
        = false
    ∧ (prepareStream true ⟨[30000, 30001, 30002, 30003, 30004, 30005, 30006, 30007],
        111, 222, 333, .error (.sipFailed "INVITE" 503 "Service Unavailable")⟩).stored.sipRtpOptions
        = some ⟨⟨(([30000, 30001, 30002, 30003, 30004, 30005, 30006, 30007] : List Nat).drop 4).getD 0 0,
            (([30000, 30001, 30002, 30003, 30004, 30005, 30006, 30007] : List Nat).drop 4).getD 1 0,
            some 333⟩⟩ :=
  c6_prepare_succeeds_on_invite_failure
    ⟨[30000, 30001, 30002, 30003, 30004, 30005, 30006, 30007], 111, 222, 333,
      .error (.sipFailed "INVITE" 503 "Service Unavailable")⟩
    (.sipFailed "INVITE" 503 "Service Unavailable") rfl

/-! ## The inactivity watchdog of `startStream` (lines 593–611)

`startStream` binds a UDP socket on the video-return port purely for
liveness.  The socket's `'message'` handler clears any pending timer and
arms a fresh `setTimeout` of `request.video.rtcp_interval * 5 * 1000`
milliseconds whose expiry force-stops the session; no timer is armed
anywhere else — in particular `startStream` itself arms none.
-/

/-- Events observed by the watchdog: an inbound datagram at time `t`, or the
event loop reaching time `t` and firing any expired timer (both in ms). -/
inductive LivenessEvent where
  | msg (t : Nat)
  | timerFire (t : Nat)
deriving Repr, DecidableEq

/-- Watchdog state: the pending timer's expiry time, if one is armed, and
how often the session has been force-stopped. -/
structure LivenessState where
  deadline : Option Nat
  stops : Nat
deriving Repr, DecidableEq

/-- The `setTimeout` duration: `rtcp_interval * 5 * 1000` ms. -/
def livenessWindowMs (rtcpInterval : Nat) : Nat := rtcpInterval * 5 * 1000

/-- One watchdog step.  After a force-stop the session is gone (`stopStream`
closed the socket and cleared the timer), so further events are inert; a
datagram (re)arms the one-shot timer; the event loop fires the timer only
when one is armed and expired, force-stopping exactly once. -/
def livenessStep (rtcpInterval : Nat) (st : LivenessState) (e : LivenessEvent) : LivenessState :=
  if st.stops ≠ 0 then st
  else
    match e with
    | .msg t => { st with deadline := some (t + livenessWindowMs rtcpInterval) }
    | .timerFire t =>
      match st.deadline with
      | some d => if d ≤ t then { deadline := none, stops := st.stops + 1 } else st
      | none => st

/-- The watchdog over a whole event trace, from the state `startStream`
leaves behind: no timer armed, no stop. -/
def runLiveness (rtcpInterval : Nat) (events : List LivenessEvent) : LivenessState :=
  events.foldl (livenessStep rtcpInterval) ⟨none, 0⟩

/-- C7 counterexample: with `rtcp_interval = 2` s the claimed window is
10000 ms, yet when no datagram ever arrives no timer was ever armed, so even
at time 100000 ms nothing fires and the session is never force-stopped —
refuting "no datagram for 5 × rtcp_interval after start ⇒ force-stopped
exactly once". -/
theorem c7_no_datagram_no_forced_stop_counterexample :
    (runLiveness 2 [LivenessEvent.timerFire 100000]).stops = 0
    ∧ ¬ (runLiveness 2 [LivenessEvent.timerFire 100000]).stops = 1 := by
  decide

/-- C7 (amended): the inactivity timer is armed only by datagram receipt.
Along any trace the session is force-stopped at most once; a trace without
datagrams never force-stops; and after one or more datagrams followed by the
timer firing at time `T`, the session is force-stopped exactly once iff `T`
is at least the last datagram's time plus `5 × rtcp_interval` seconds — each
datagram resets the window. -/
theorem c7_liveness_timer_armed_by_datagrams :
    (∀ (rtcpInterval : Nat) (events : List LivenessEvent),
        (∀ t, LivenessEvent.msg t ∉ events) →
        (runLiveness rtcpInterval events).stops = 0)
    ∧ (∀ (rtcpInterval : Nat) (events : List LivenessEvent),
        (runLiveness rtcpInterval events).stops ≤ 1)
    ∧ (∀ (rtcpInterval : Nat) (ts : List Nat) (T : Nat), ts ≠ [] →
        (runLiveness rtcpInterval (ts.map LivenessEvent.msg ++ [LivenessEvent.timerFire T])).stops
          = if ts.getLastD 0 + livenessWindowMs rtcpInterval ≤ T then 1 else 0) := by
  have hquiet : ∀ (rtcpInterval : Nat) (events : List LivenessEvent) (st : LivenessState),
      st = ⟨none, 0⟩ → (∀ t, LivenessEvent.msg t ∉ events) →
      events.foldl (livenessStep rtcpInterval) st = ⟨none, 0⟩ := by
    intro rtcpInterval events
    induction events with
    | nil => intro st hst _; simp [hst]
    | cons e rest ih =>
      intro st hst hnomsg
      subst hst
      have hstep : livenessStep rtcpInterval ⟨none, 0⟩ e = ⟨none, 0⟩ := by
        cases e with
        | msg t => exact absurd (List.mem_cons_self (LivenessEvent.msg t) rest) (hnomsg t)
        | timerFire t => simp [livenessStep]
      rw [List.foldl_cons, hstep]
      exact ih _ rfl (fun t ht => hnomsg t (List.mem_cons_of_mem _ ht))
  have hstep_le : ∀ (rtcpInterval : Nat) (st : LivenessState) (e : LivenessEvent),
      st.stops ≤ 1 → (livenessStep rtcpInterval st e).stops ≤ 1 := by
    intro rtcpInterval st e h
    unfold livenessStep
    split_ifs with hz
    · exact h
    · simp only [not_not] at hz
      cases e with
      | msg t => simpa using h
      | timerFire t =>
        rcases hd : st.deadline with _ | d
        · simpa using h
        · dsimp only
          split_ifs with hdt
          · simp [hz]
          · simpa using h
  have hle : ∀ (rtcpInterval : Nat) (events : List LivenessEvent) (st : LivenessState),
      st.stops ≤ 1 → (events.foldl (livenessStep rtcpInterval) st).stops ≤ 1 := by
    intro rtcpInterval events
    induction events with
    | nil => intro st h; simpa
    | cons e rest ih =>
      intro st h
      rw [List.foldl_cons]
      exact ih _ (hstep_le rtcpInterval st e h)
  have harm : ∀ (rtcpInterval : Nat) (ts : List Nat) (st : LivenessState),
      st.stops = 0 → ts ≠ [] →
      (ts.map LivenessEvent.msg).foldl (livenessStep rtcpInterval) st
        = ⟨some (ts.getLastD 0 + livenessWindowMs rtcpInterval), 0⟩ := by
    intro rtcpInterval ts
    induction ts with
    | nil => intro st _ h; cases h rfl
    | cons t rest ih =>
      intro st hst _
      have hstep : livenessStep rtcpInterval st (LivenessEvent.msg t)
          = { st with deadline := some (t + livenessWindowMs rtcpInterval) } := by
        unfold livenessStep
        simp [hst]
      rw [List.map_cons, List.foldl_cons, hstep]
      rcases hrest : rest with _ | ⟨t2, rest2⟩
      · simp [List.getLastD, hst]
      · rw [← hrest]
        have hne : rest ≠ [] := by simp [hrest]
        rw [ih _ (by simp [hst]) hne]
        congr 1
        rcases rest with _ | _
        · cases hne rfl
        · simp [List.getLastD_cons]
  refine ⟨?_, ?_, ?_⟩
  · intro rtcpInterval events hnomsg
    rw [runLiveness, hquiet rtcpInterval events _ rfl hnomsg]
  · intro rtcpInterval events
    exact hle rtcpInterval events ⟨none, 0⟩ (by simp)
  · intro rtcpInterval ts T hne
    rw [runLiveness, List.foldl_append, harm rtcpInterval ts _ rfl hne]
    simp only [List.foldl_cons, List.foldl_nil]
    unfold livenessStep
    rw [if_neg (by simp)]
    dsimp only
    split_ifs with hexp
    · rfl
    · rfl

/-- C7 witness: `c7_liveness_timer_armed_by_datagrams` instantiated on
concrete traces — a datagram-free trace (never stopped), an arbitrary trace
(at most one stop), and a datagram at 5000 ms with the timer firing at
20000 ms against a 10000 ms window (stopped exactly once). -/
theorem c7_liveness_timer_armed_by_datagrams_witness :
    (runLiveness 2 [LivenessEvent.timerFire 50000]).stops = 0
    ∧ (runLiveness 2 [LivenessEvent.msg 0, LivenessEvent.timerFire 50000]).stops ≤ 1
    ∧ (runLiveness 2 (([5000] : List Nat).map LivenessEvent.msg
          ++ [LivenessEvent.timerFire 20000])).stops
        = if ([5000] : List Nat).getLastD 0 + livenessWindowMs 2 ≤ 20000 then 1 else 0 :=
  ⟨c7_liveness_timer_armed_by_datagrams.1 2 [LivenessEvent.timerFire 50000]
      (by intro t h; simp at h),
   c7_liveness_timer_armed_by_datagrams.2.1 2
      [LivenessEvent.msg 0, LivenessEvent.timerFire 50000],
   c7_liveness_timer_armed_by_datagrams.2.2 2 [5000] 20000 (by decide)⟩

/-! ## Teardown: `StreamingDelegate.stopStream` (lines 745–771) -/

/-- The four-plus-one teardown steps of `stopStream` (clearing the timer has
no observable failure mode and is omitted): close the liveness socket, stop
the main and the return transcoding process, send the SIP BYE, close the RTP
relay. -/
inductive TeardownAction where
  | closeSocket
  | stopMainProcess
  | stopReturnProcess
  | sendSipBye
  | closeRtpRelay
deriving Repr, DecidableEq

/-- The slice of an `ActiveSession` read by `stopStream`: which optional
components exist (every field of `ActiveSession` is optional). -/
structure ActiveSessionModel where
  hasTimeout : Bool
  hasSocket : Bool
  hasMainProcess : Bool
  hasReturnProcess : Bool
  hasRtpHelper : Bool
deriving Repr, DecidableEq

/-- Failure environment for one `stopStream` call: which of the teardown
primitives raises when invoked. -/
structure TeardownEnv where
  socketCloseRaises : Bool
  mainStopRaises : Bool
  returnStopRaises : Bool
  byeRequestFails : Bool
deriving Repr, DecidableEq

/-- Observable outcome of `stopStream`: the surviving session map, the
teardown actions attempted (in program order), the actions whose error was
caught and logged, and how many BYEs were sent. -/
structure StopOutcome where
  sessions : List (String × ActiveSessionModel)
  attempted : List TeardownAction
  caughtLogged : List TeardownAction
  byeSends : Nat
deriving Repr, DecidableEq

/-- `StreamingDelegate.stopStream`.  A missing session skips all teardown
(the `Map.get` guard) and the `Map.delete` is a no-op.  For a tracked
session: the socket close and both process stops each sit in their own
`try { ... } catch { log }`; `sendBye()` swallows its own request failure
inside `SipCall.sendBye` (sip-call.ts lines 196–203), so the bye is sent
(attempted) exactly once whenever a SIP call is configured.  The relay close
is modelled from the spec, `rtp.ts` not being part of src/: `close()`
"releases all bound sockets idempotently" (§4.4) and every teardown action
catches and logs its own error (§7), so it raises nothing.  The function
therefore always returns normally (`.ok`), with the session removed. -/
def stopStream (sipConfigured : Bool) (sessions : List (String × ActiveSessionModel))
    (sessionId : String) (env : TeardownEnv) : Except JsError StopOutcome :=
  match sessions.find? (fun p => p.1 == sessionId) with
  | none =>
    .ok { sessions := sessions.filter (fun p => p.1 != sessionId),
          attempted := [], caughtLogged := [], byeSends := 0 }
  | some p =>
    let s := p.2
    let a1 : List TeardownAction := if s.hasSocket then [.closeSocket] else []
    let c1 : List TeardownAction :=
      if s.hasSocket && env.socketCloseRaises then [.closeSocket] else []
    let a2 : List TeardownAction := if s.hasMainProcess then [.stopMainProcess] else []
    let c2 : List TeardownAction :=
      if s.hasMainProcess && env.mainStopRaises then [.stopMainProcess] else []
    let a3 : List TeardownAction := if s.hasReturnProcess then [.stopReturnProcess] else []
    let c3 : List TeardownAction :=
      if s.hasReturnProcess && env.returnStopRaises then [.stopReturnProcess] else []
    let a4 : List TeardownAction := if sipConfigured then [.sendSipBye] else []
    let c4 : List TeardownAction :=
      if sipConfigured && env.byeRequestFails then [.sendSipBye] else []
    let a5 : List TeardownAction := if s.hasRtpHelper then [.closeRtpRelay] else []
    .ok { sessions := sessions.filter (fun p => p.1 != sessionId),
          attempted := a1 ++ a2 ++ a3 ++ a4 ++ a5,
          caughtLogged := c1 ++ c2 ++ c3 ++ c4,
          byeSends := if sipConfigured then 1 else 0 }

/-- C8 (confirmed): stopping a tracked session with every component present
and SIP configured attempts all of the teardown actions in order — socket
close, both process stops, SIP BYE, relay close — regardless of which
primitives fail; every failing primitive's error is caught and logged, the
function returns normally (never fails outward), exactly one BYE is sent,
and the session is no longer tracked afterwards. -/
theorem c8_stop_runs_every_teardown_action :
    ∀ (sessions : List (String × ActiveSessionModel)) (sessionId : String)
      (p : String × ActiveSessionModel) (env : TeardownEnv),
      sessions.find? (fun q => q.1 == sessionId) = some p →
      p.2.hasSocket = true → p.2.hasMainProcess = true → p.2.hasReturnProcess = true →
      p.2.hasRtpHelper = true →
      ∃ out, stopStream true sessions sessionId env = .ok out
        ∧ out.attempted
            = [.closeSocket, .stopMainProcess, .stopReturnProcess, .sendSipBye, .closeRtpRelay]
        ∧ out.byeSends = 1
        ∧ out.sessions.find? (fun q => q.1 == sessionId) = none
        ∧ (env.socketCloseRaises = true → TeardownAction.closeSocket ∈ out.caughtLogged)
        ∧ (env.mainStopRaises = true → TeardownAction.stopMainProcess ∈ out.caughtLogged)
        ∧ (env.returnStopRaises = true → TeardownAction.stopReturnProcess ∈ out.caughtLogged)
        ∧ (env.byeRequestFails = true → TeardownAction.sendSipBye ∈ out.caughtLogged) := by
  intro sessions sessionId p env hfind hsock hmp hret hrtp
  have hrun : stopStream true sessions sessionId env = .ok
      { sessions := sessions.filter (fun q => q.1 != sessionId),
        attempted :=
          [.closeSocket, .stopMainProcess, .stopReturnProcess, .sendSipBye, .closeRtpRelay],
        caughtLogged :=
          (if env.socketCloseRaises then [TeardownAction.closeSocket] else []) ++
          ((if env.mainStopRaises then [TeardownAction.stopMainProcess] else []) ++
          ((if env.returnStopRaises then [TeardownAction.stopReturnProcess] else []) ++
          (if env.byeRequestFails then [TeardownAction.sendSipBye] else []))),
        byeSends := 1 } := by
    simp only [stopStream, hfind]
    simp [hsock, hmp, hret, hrtp, List.append_assoc]
  refine ⟨_, hrun, rfl, rfl, ?_, ?_, ?_, ?_, ?_⟩
  · rw [List.find?_eq_none]
    intro q hq
    rw [List.mem_filter] at hq
    simpa using hq.2
  · intro hfail
    simp [hfail]
  · intro hfail
    simp [hfail]
  · intro hfail
    simp [hfail]
  · intro hfail
    simp [hfail]

/-- C8 witness: a tracked fully-populated session with every primitive set
to fail, run through `c8_stop_runs_every_teardown_action`. -/
theorem c8_stop_runs_every_teardown_action_witness :
    ∃ out, stopStream true [("sess-1", ⟨true, true, true, true, true⟩)] "sess-1"
        ⟨true, true, true, true⟩ = .ok out
      ∧ out.attempted
          = [.closeSocket, .stopMainProcess, .stopReturnProcess, .sendSipBye, .closeRtpRelay]
      ∧ out.byeSends = 1
      ∧ out.sessions.find? (fun q => q.1 == "sess-1") = none
      ∧ (true = true → TeardownAction.closeSocket ∈ out.caughtLogged)
      ∧ (true = true → TeardownAction.stopMainProcess ∈ out.caughtLogged)
      ∧ (true = true → TeardownAction.stopReturnProcess ∈ out.caughtLogged)
      ∧ (true = true → TeardownAction.sendSipBye ∈ out.caughtLogged) :=
  c8_stop_runs_every_teardown_action [("sess-1", ⟨true, true, true, true, true⟩)] "sess-1"
    ("sess-1", ⟨true, true, true, true, true⟩) ⟨true, true, true, true⟩
    (by decide) rfl rfl rfl rfl

/-- C9 (confirmed): `stopStream` on a session id that is not tracked (never
active, or already stopped and hence deleted) is a no-op — it returns
normally, attempts no teardown action, sends no BYE, and leaves the session
map unchanged (which in particular still lacks that id). -/
theorem c9_stop_untracked_session_noop :
    ∀ (sipConfigured : Bool) (sessions : List (String × ActiveSessionModel))
      (sessionId : String) (env : TeardownEnv),
      sessions.find? (fun q => q.1 == sessionId) = none →
      stopStream sipConfigured sessions sessionId env
        = .ok { sessions := sessions, attempted := [], caughtLogged := [], byeSends := 0 } := by
  intro sipConfigured sessions sessionId env hfind
  have hfilter : sessions.filter (fun p => p.1 != sessionId) = sessions := by
    rw [List.filter_eq_self]
    intro q hq
    have := List.find?_eq_none.mp hfind q hq
    simpa using this
  simp only [stopStream, hfind, hfilter]

/-- C9 witness: stopping an id absent from a concrete one-session map via
`c9_stop_untracked_session_noop`. -/
theorem c9_stop_untracked_session_noop_witness :
    stopStream true [("sess-1", ⟨true, true, true, true, true⟩)] "sess-2"
        ⟨false, false, false, false⟩
      = .ok { sessions := [("sess-1", ⟨true, true, true, true, true⟩)],
              attempted := [], caughtLogged := [], byeSends := 0 } :=
  c9_stop_untracked_session_noop true [("sess-1", ⟨true, true, true, true, true⟩)] "sess-2"
    ⟨false, false, false, false⟩ (by decide)
